import Mathlib

/-!
Verification of the HabitGate mobile TimeBank ledger.

This file shallowly embeds the TimeBank state machine of
`src/store/timeBankStore.ts`, the constants and initial snapshot of
`src/data/timebank.ts`, and the service wrapper of
`src/services/timebankService.ts`, and proves / refutes the frozen claims
about them.

Modelling conventions:
* JavaScript `number` values are modelled as `Int` (every constant and every
  amount manipulated by the ledger is an integer number of minutes).
* A `"YYYY-MM-DD"` date string is modelled by its day number (days since the
  Unix epoch): two date strings are equal iff their day numbers are equal, and
  the ledger only ever compares dates for equality.
* `new Date()` is modelled by a `Clock` carrying the epoch milliseconds and
  the local timezone offset; `toLocaleDateString("en-CA")` becomes the local
  day number and `toISOString().split("T")[0]` becomes the UTC day number.
* The Zustand store's `get`/`set` pair is modelled by explicit state passing:
  each action takes the pre-state and returns its result together with the
  post-state.  `uuidv4()` and `Date.now()` are effects of the environment and
  are passed in as the `id` and `timestamp` arguments.
-/

namespace HabitGate

/-- `TransactionType` from `src/data/timebank.ts`: `"earn" | "spend" | "bonus" | "penalty"`. -/
inductive TransactionType where
  | earn
  | spend
  | bonus
  | penalty
deriving DecidableEq, Repr

/-- `TransactionSourceType` from `src/data/timebank.ts`:
`"habit" | "app_unlock" | "emergency" | "bonus" | "streak"`. -/
inductive TransactionSourceType where
  | habit
  | app_unlock
  | emergency
  | bonus
  | streak
deriving DecidableEq, Repr

/-- `TransactionMetadata` from `src/data/timebank.ts`; all fields optional.
`duration` and `bonusMultiplier` are numbers, modelled as `Int`. -/
structure TransactionMetadata where
  habitName : Option String := none
  appName : Option String := none
  duration : Option Int := none
  bonusMultiplier : Option Int := none
deriving DecidableEq, Repr

/-- `Transaction` from `src/data/timebank.ts`. -/
structure Transaction where
  id : String
  type : TransactionType
  amount : Int
  balanceAfter : Int
  sourceType : TransactionSourceType
  sourceId : Option String := none
  metadata : Option TransactionMetadata := none
  timestamp : Int
deriving DecidableEq, Repr

/-- `TimeBankState` from `src/data/timebank.ts`.  `lastResetDate` is the day
number behind the stored `"YYYY-MM-DD"` string. -/
structure TimeBankState where
  balance : Int
  lifetimeEarned : Int
  lifetimeSpent : Int
  dailyEarned : Int
  lastResetDate : Int
  transactions : List Transaction
deriving DecidableEq, Repr

/-- `DAILY_EARNING_CAP = 180` from `src/data/timebank.ts`. -/
def DAILY_EARNING_CAP : Int := 180

/-- `MAX_BALANCE = 480` from `src/data/timebank.ts` ("Maximum balance allowed"). -/
def MAX_BALANCE : Int := 480

/-- `MIN_BALANCE = -60` from `src/data/timebank.ts`. -/
def MIN_BALANCE : Int := -60

/-- A reading of the environment clock: epoch milliseconds together with the
local timezone offset (minutes east of UTC). -/
structure Clock where
  nowMs : Int
  tzOffsetMin : Int
deriving DecidableEq, Repr

/-- Milliseconds per calendar day. -/
def msPerDay : Int := 86400000

/-- The UTC calendar day of a clock reading: the day number rendered by
`new Date().toISOString().split("T")[0]`. -/
def utcDay (c : Clock) : Int := Int.fdiv c.nowMs msPerDay

/-- The local calendar day of a clock reading: the day number rendered by
`new Date().toLocaleDateString("en-CA")` (YYYY-MM-DD in the local timezone). -/
def localDay (c : Clock) : Int := Int.fdiv (c.nowMs + c.tzOffsetMin * 60000) msPerDay

/-- `INITIAL_TIME_BANK_STATE` from `src/data/timebank.ts`.  The source
initialises `lastResetDate` with `new Date().toISOString().split("T")[0]`
(the UTC date at creation time), hence the `Clock` parameter. -/
def INITIAL_TIME_BANK_STATE (c : Clock) : TimeBankState :=
  { balance := 45
    lifetimeEarned := 2450
    lifetimeSpent := 680
    dailyEarned := 50
    lastResetDate := utcDay c
    transactions := [] }

/-- `addBalance` from `src/store/timeBankStore.ts`.  `today` is the value of
`new Date().toLocaleDateString("en-CA")` at the call; `id` and `timestamp`
are the values of `uuidv4()` and `Date.now()`.  Returns the boolean result
together with the post-state (the daily reset, when triggered, persists even
when the action then returns `false`, mirroring the eager `set` in the
source). -/
def addBalance (amount : Int) (source : TransactionSourceType)
    (metadata : Option TransactionMetadata) (id : String) (timestamp : Int)
    (today : Int) (s : TimeBankState) : Bool × TimeBankState :=
  let s := if s.lastResetDate ≠ today then
      { s with dailyEarned := 0, lastResetDate := today } else s
  let remainingCapacity := DAILY_EARNING_CAP - s.dailyEarned
  if remainingCapacity ≤ 0 then (false, s)
  else
    let cappedAmount := min amount remainingCapacity
    let newDailyEarned := s.dailyEarned + cappedAmount
    let newBalance := s.balance + cappedAmount
    let transaction : Transaction :=
      { id := id
        type := TransactionType.earn
        amount := cappedAmount
        balanceAfter := newBalance
        sourceType := source
        metadata := metadata
        timestamp := timestamp }
    (true,
      { s with
          balance := newBalance
          lifetimeEarned := s.lifetimeEarned + cappedAmount
          dailyEarned := newDailyEarned
          transactions := (transaction :: s.transactions).take 50 })

/-- `deductBalance` from `src/store/timeBankStore.ts`.  Note the source stores
the spend transaction's `amount` field as the (positive) `amount` argument. -/
def deductBalance (amount : Int) (source : TransactionSourceType)
    (metadata : Option TransactionMetadata) (id : String) (timestamp : Int)
    (s : TimeBankState) : Bool × TimeBankState :=
  if s.balance < amount then (false, s)
  else
    let newBalance := s.balance - amount
    let transaction : Transaction :=
      { id := id
        type := TransactionType.spend
        amount := amount
        balanceAfter := newBalance
        sourceType := source
        metadata := metadata
        timestamp := timestamp }
    (true,
      { s with
          balance := newBalance
          lifetimeSpent := s.lifetimeSpent + amount
          transactions := (transaction :: s.transactions).take 50 })

/-- `resetDailyEarned` from `src/store/timeBankStore.ts`. -/
def resetDailyEarned (today : Int) (s : TimeBankState) : TimeBankState :=
  { s with dailyEarned := 0, lastResetDate := today }

/-- `getTransactions` from `src/store/timeBankStore.ts`
(`get().transactions.slice(0, limit)`); it only reads the state. -/
def getTransactions (limit : Nat) (s : TimeBankState) :
    List Transaction × TimeBankState :=
  (s.transactions.take limit, s)

/-- `getRemainingDailyCapacity` from `src/store/timeBankStore.ts`.  The source
binds `const state = get()` once, performs the reset `set` when the date
changed, and then returns `Math.max(DAILY_EARNING_CAP - state.dailyEarned, 0)`
computed from that earlier `state` binding — the pre-reset value. -/
def getRemainingDailyCapacity (today : Int) (s : TimeBankState) :
    Int × TimeBankState :=
  let s1 := if s.lastResetDate ≠ today then
      { s with dailyEarned := 0, lastResetDate := today } else s
  (max (DAILY_EARNING_CAP - s.dailyEarned) 0, s1)

/-- The date the service wrapper computes:
`LocalTimeBankService.getRemainingDailyCapacity` in
`src/services/timebankService.ts` uses `new Date().toISOString().split("T")[0]`,
i.e. the UTC calendar day. -/
def serviceToday (c : Clock) : Int := utcDay c

/-- `LocalTimeBankService.getRemainingDailyCapacity` from
`src/services/timebankService.ts`: same shape as the store action but with
`today` computed from `toISOString` (UTC), and again returning the capacity
computed from the `state` binding taken before the reset `set`. -/
def serviceGetRemainingDailyCapacity (c : Clock) (s : TimeBankState) :
    Int × TimeBankState :=
  let today := serviceToday c
  let s1 := if s.lastResetDate ≠ today then
      { s with dailyEarned := 0, lastResetDate := today } else s
  (max (DAILY_EARNING_CAP - s.dailyEarned) 0, s1)

/-- Modelled from the spec: the audit replay of the transaction log.  The
spec's invariant sums "each transaction's signed amount" in chronological
order from a starting balance; the log is stored newest-first, so a right
fold visits transactions chronologically. -/
def replayBalance (start : Int) (txs : List Transaction) : Int :=
  txs.foldr (fun t b => b + t.amount) start

/-- The head-of-log consistency check: if the log is non-empty, its most
recent (head) transaction's `balanceAfter` equals the current `balance`. -/
def lastTxOk (s : TimeBankState) : Bool :=
  match s.transactions with
  | [] => true
  | t :: _ => t.balanceAfter == s.balance

/-- A clock reading at the Unix epoch in the UTC timezone. -/
def day0Clock : Clock := ⟨0, 0⟩

/-- The initial snapshot created under `day0Clock` (so `lastResetDate = 0`). -/
def freshState : TimeBankState := INITIAL_TIME_BANK_STATE day0Clock

/-- The state reached from `freshState` by three `addBalance 180` calls on
three consecutive days (local days 1, 2, 3). -/
def overflowState : TimeBankState :=
  (addBalance 180 TransactionSourceType.habit none "t3" 0 3
    (addBalance 180 TransactionSourceType.habit none "t2" 0 2
      (addBalance 180 TransactionSourceType.habit none "t1" 0 1
        freshState).2).2).2

/-- The state reached from `freshState` by `addBalance 10` followed by
`deductBalance 5`, both on day 0. -/
def auditState : TimeBankState :=
  (deductBalance 5 TransactionSourceType.app_unlock none "t2" 2000
    (addBalance 10 TransactionSourceType.habit none "t1" 1000 0
      freshState).2).2

/-- A state whose daily cap was fully used on day 0
(`dailyEarned = 180 = DAILY_EARNING_CAP`). -/
def staleCapState : TimeBankState := ⟨45, 0, 0, 180, 0, []⟩

/-- A clock at 2024-01-02T03:00:00Z in timezone UTC-5, i.e. local time
2024-01-01 22:00: the UTC day (19724) is one ahead of the local day (19723). -/
def skewedClock : Clock := ⟨1704164400000, -300⟩

/-- A state last reset on local day 19723 with 100 minutes earned that day. -/
def eveningState : TimeBankState := ⟨45, 0, 0, 100, 19723, []⟩

/-! ## Theorems -/

/-- Helper: when the date matches and the daily cap is already exhausted,
`addBalance` returns `false` and leaves the state unchanged. -/
theorem addBalance_cap_exhausted
    (s : TimeBankState) (today amount : Int) (src : TransactionSourceType)
    (md : Option TransactionMetadata) (id : String) (ts : Int)
    (hdate : s.lastResetDate = today)
    (hfull : DAILY_EARNING_CAP - s.dailyEarned ≤ 0) :
    addBalance amount src md id ts today s = (false, s) := by
  have hne : ¬ (s.lastResetDate ≠ today) := by simp [hdate]
  simp only [addBalance, if_neg hne, if_pos hfull]

/-- C1: the spec requires `MIN_BALANCE ≤ balance ≤ MAX_BALANCE` for all
operation sequences, with earn clamping to `MAX_BALANCE`.  The store's
`addBalance` never clamps: starting from the initial snapshot, earning the
daily cap on three consecutive days drives the balance to 585, strictly above
`MAX_BALANCE = 480`. -/
theorem addBalance_no_max_clamp_eval :
    overflowState.balance = 585 ∧ MAX_BALANCE < overflowState.balance := by
  decide

/-- C2: the signed-amount audit replay fails on the code.  After earning 10
and spending 5 from the initial snapshot (balance 45), the spend transaction
is stored with a positive amount `5` (not `-5`), so summing the stored
amounts chronologically gives `45 + 10 + 5 = 60`, while the stored
`balanceAfter` of that transaction is `50`. -/
theorem spend_breaks_signed_replay_eval :
    auditState.transactions.head? = some
      { id := "t2"
        type := TransactionType.spend
        amount := 5
        balanceAfter := 50
        sourceType := TransactionSourceType.app_unlock
        timestamp := 2000 } ∧
    replayBalance freshState.balance auditState.transactions = 60 ∧
    (0 : Int) < 5 ∧ (60 : Int) ≠ 50 := by
  decide

/-- C3: when the day matches, `0 < dailyEarned < DAILY_EARNING_CAP` and the
requested amount exceeds the remaining capacity, `addBalance` succeeds with
the capped amount `DAILY_EARNING_CAP - dailyEarned`, leaves
`dailyEarned = DAILY_EARNING_CAP`, and every subsequent earn call the same
day returns `false` without changing the state. -/
theorem addBalance_caps_then_rejects
    (s : TimeBankState) (today amount amount2 : Int)
    (src src2 : TransactionSourceType) (md md2 : Option TransactionMetadata)
    (id1 id2 : String) (ts1 ts2 : Int)
    (hdate : s.lastResetDate = today)
    (hpos : 0 < s.dailyEarned)
    (hlt : s.dailyEarned < DAILY_EARNING_CAP)
    (hexceed : DAILY_EARNING_CAP - s.dailyEarned < amount) :
    (addBalance amount src md id1 ts1 today s).1 = true ∧
    (addBalance amount src md id1 ts1 today s).2.dailyEarned = DAILY_EARNING_CAP ∧
    (addBalance amount src md id1 ts1 today s).2.balance
      = s.balance + (DAILY_EARNING_CAP - s.dailyEarned) ∧
    addBalance amount2 src2 md2 id2 ts2 today
        (addBalance amount src md id1 ts1 today s).2
      = (false, (addBalance amount src md id1 ts1 today s).2) := by
  have hne : ¬ (s.lastResetDate ≠ today) := by simp [hdate]
  have hroom : ¬ (DAILY_EARNING_CAP - s.dailyEarned ≤ 0) := by omega
  have hmin : min amount (DAILY_EARNING_CAP - s.dailyEarned)
      = DAILY_EARNING_CAP - s.dailyEarned := min_eq_right hexceed.le
  have hmain : addBalance amount src md id1 ts1 today s
      = (true, { s with
          balance := s.balance + (DAILY_EARNING_CAP - s.dailyEarned)
          lifetimeEarned := s.lifetimeEarned + (DAILY_EARNING_CAP - s.dailyEarned)
          dailyEarned := s.dailyEarned + (DAILY_EARNING_CAP - s.dailyEarned)
          transactions :=
            ({ id := id1
               type := TransactionType.earn
               amount := DAILY_EARNING_CAP - s.dailyEarned
               balanceAfter := s.balance + (DAILY_EARNING_CAP - s.dailyEarned)
               sourceType := src
               metadata := md
               timestamp := ts1 } :: s.transactions).take 50 }) := by
    simp only [addBalance, if_neg hne, if_neg hroom, hmin]
  refine ⟨?_, ?_, ?_, ?_⟩
  · rw [hmain]
  · rw [hmain]
    show s.dailyEarned + (DAILY_EARNING_CAP - s.dailyEarned) = DAILY_EARNING_CAP
    omega
  · rw [hmain]
  · refine addBalance_cap_exhausted _ today amount2 src2 md2 id2 ts2 ?_ ?_
    · rw [hmain]; exact hdate
    · rw [hmain]
      show DAILY_EARNING_CAP
        - (s.dailyEarned + (DAILY_EARNING_CAP - s.dailyEarned)) ≤ 0
      omega

/-- Closed instance of `addBalance_caps_then_rejects` at a concrete state
(`dailyEarned = 100`, `today = 5`, requested amounts 200 then 7). -/
theorem addBalance_caps_then_rejects_witness :
    ((⟨45, 0, 0, 100, 5, []⟩ : TimeBankState).lastResetDate = 5 ∧
     0 < (⟨45, 0, 0, 100, 5, []⟩ : TimeBankState).dailyEarned ∧
     (⟨45, 0, 0, 100, 5, []⟩ : TimeBankState).dailyEarned < DAILY_EARNING_CAP ∧
     DAILY_EARNING_CAP - (⟨45, 0, 0, 100, 5, []⟩ : TimeBankState).dailyEarned < 200) ∧
    ((addBalance 200 TransactionSourceType.habit none "w1" 0 5
        (⟨45, 0, 0, 100, 5, []⟩ : TimeBankState)).1 = true ∧
     (addBalance 200 TransactionSourceType.habit none "w1" 0 5
        (⟨45, 0, 0, 100, 5, []⟩ : TimeBankState)).2.dailyEarned = DAILY_EARNING_CAP ∧
     (addBalance 200 TransactionSourceType.habit none "w1" 0 5
        (⟨45, 0, 0, 100, 5, []⟩ : TimeBankState)).2.balance
       = (⟨45, 0, 0, 100, 5, []⟩ : TimeBankState).balance
         + (DAILY_EARNING_CAP - (⟨45, 0, 0, 100, 5, []⟩ : TimeBankState).dailyEarned) ∧
     addBalance 7 TransactionSourceType.habit none "w2" 1 5
         (addBalance 200 TransactionSourceType.habit none "w1" 0 5
           (⟨45, 0, 0, 100, 5, []⟩ : TimeBankState)).2
       = (false, (addBalance 200 TransactionSourceType.habit none "w1" 0 5
           (⟨45, 0, 0, 100, 5, []⟩ : TimeBankState)).2)) :=
  ⟨by decide,
   addBalance_caps_then_rejects (⟨45, 0, 0, 100, 5, []⟩ : TimeBankState) 5 200 7
     TransactionSourceType.habit TransactionSourceType.habit none none
     "w1" "w2" 0 1 (by decide) (by decide) (by decide) (by decide)⟩

/-- C4: when the requested amount exceeds the balance, `deductBalance`
returns `false` and leaves the state (balance, `lifetimeSpent`, transaction
log) completely unchanged. -/
theorem deductBalance_insufficient_no_mutation
    (s : TimeBankState) (amount : Int) (src : TransactionSourceType)
    (md : Option TransactionMetadata) (id : String) (ts : Int)
    (h : s.balance < amount) :
    deductBalance amount src md id ts s = (false, s) := by
  simp only [deductBalance, if_pos h]

/-- Closed instance of `deductBalance_insufficient_no_mutation`:
spending 1000 from the initial snapshot (balance 45) fails without mutation. -/
theorem deductBalance_insufficient_no_mutation_witness :
    freshState.balance < 1000 ∧
    deductBalance 1000 TransactionSourceType.app_unlock none "w" 0 freshState
      = (false, freshState) :=
  ⟨by decide,
   deductBalance_insufficient_no_mutation freshState 1000
     TransactionSourceType.app_unlock none "w" 0 (by decide)⟩

/-- C5: `getRemainingDailyCapacity` resets the daily counter when the day
changed, but returns the capacity computed from the stale pre-reset
`dailyEarned`.  On the first call of a new day from a state with
`dailyEarned = 180` it returns `0`, although the freshly reset state has
`dailyEarned = 0` and the post-rollover computation would give the full
`DAILY_EARNING_CAP = 180`. -/
theorem getRemainingDailyCapacity_stale_eval :
    (getRemainingDailyCapacity 1 staleCapState).1 = 0 ∧
    (getRemainingDailyCapacity 1 staleCapState).2.dailyEarned = 0 ∧
    (getRemainingDailyCapacity 1 staleCapState).2.lastResetDate = 1 ∧
    max (DAILY_EARNING_CAP
          - (getRemainingDailyCapacity 1 staleCapState).2.dailyEarned) 0 = 180 := by
  decide

/-- C6 counterexample: the initial snapshot does not have zero lifetime and
daily counters (`lifetimeEarned = 2450`, `lifetimeSpent = 680`,
`dailyEarned = 50`). -/
theorem initial_state_counters_nonzero :
    ¬ ((INITIAL_TIME_BANK_STATE day0Clock).lifetimeEarned = 0 ∧
       (INITIAL_TIME_BANK_STATE day0Clock).lifetimeSpent = 0 ∧
       (INITIAL_TIME_BANK_STATE day0Clock).dailyEarned = 0) := by
  decide

/-- C6 amended: a fresh ledger starts from the fixed snapshot with balance 45,
`lifetimeEarned = 2450`, `lifetimeSpent = 680`, `dailyEarned = 50`,
`lastResetDate` set to the creation day (UTC date), and an empty transaction
list. -/
theorem initial_state_fields (c : Clock) :
    (INITIAL_TIME_BANK_STATE c).balance = 45 ∧
    (INITIAL_TIME_BANK_STATE c).lifetimeEarned = 2450 ∧
    (INITIAL_TIME_BANK_STATE c).lifetimeSpent = 680 ∧
    (INITIAL_TIME_BANK_STATE c).dailyEarned = 50 ∧
    (INITIAL_TIME_BANK_STATE c).lastResetDate = utcDay c ∧
    (INITIAL_TIME_BANK_STATE c).transactions = [] :=
  ⟨rfl, rfl, rfl, rfl, rfl, rfl⟩

/-- C7: non-positive amounts are silently applied, not rejected.  From the
initial snapshot (balance 45), `addBalance (-10)` reports success and lowers
the balance to 35, and `deductBalance (-10)` reports success and raises the
balance to 55. -/
theorem nonpositive_amounts_applied_eval :
    (addBalance (-10) TransactionSourceType.habit none "a" 0 0 freshState).1
      = true ∧
    (addBalance (-10) TransactionSourceType.habit none "a" 0 0 freshState).2.balance
      = 35 ∧
    (addBalance (-10) TransactionSourceType.habit none "a" 0 0 freshState).2.dailyEarned
      = 40 ∧
    (deductBalance (-10) TransactionSourceType.app_unlock none "b" 0 freshState).1
      = true ∧
    (deductBalance (-10) TransactionSourceType.app_unlock none "b" 0 freshState).2.balance
      = 55 ∧
    freshState.balance = 45 := by
  decide

/-- C8: the service wrapper computes "today" from `toISOString` (UTC), not
the local calendar date.  Under `skewedClock` the UTC day is 19724 while the
local day is still 19723; from a state last reset on local day 19723 the
service therefore performs a spurious rollover (resetting `dailyEarned` to 0
and stamping the UTC day), even though the local day has not changed. -/
theorem service_uses_utc_date_eval :
    serviceToday skewedClock = 19724 ∧
    localDay skewedClock = 19723 ∧
    eveningState.lastResetDate = localDay skewedClock ∧
    (serviceGetRemainingDailyCapacity skewedClock eveningState).2.dailyEarned = 0 ∧
    (serviceGetRemainingDailyCapacity skewedClock eveningState).2.lastResetDate
      = serviceToday skewedClock ∧
    serviceToday skewedClock ≠ localDay skewedClock := by
  decide

/-- C9: every store operation preserves the invariant that the most recent
logged transaction's `balanceAfter` equals the current `balance`
(vacuously true for an empty log). -/
theorem ops_preserve_lastTxOk
    (s : TimeBankState) (today amount : Int) (src : TransactionSourceType)
    (md : Option TransactionMetadata) (id : String) (ts : Int) (limit : Nat)
    (h : lastTxOk s = true) :
    lastTxOk (addBalance amount src md id ts today s).2 = true ∧
    lastTxOk (deductBalance amount src md id ts s).2 = true ∧
    lastTxOk (resetDailyEarned today s) = true ∧
    lastTxOk (getTransactions limit s).2 = true ∧
    lastTxOk (getRemainingDailyCapacity today s).2 = true := by
  have htake : ∀ (t : Transaction) (l : List Transaction),
      (t :: l).take 50 = t :: l.take 49 := fun t l => rfl
  refine ⟨?_, ?_, ?_, ?_, ?_⟩
  · simp only [addBalance]
    split_ifs with hd hc hc
    all_goals first
      | exact h
      | simp [lastTxOk, htake]
  · simp only [deductBalance]
    split_ifs with hd
    all_goals first
      | exact h
      | simp [lastTxOk, htake]
  · exact h
  · exact h
  · simp only [getRemainingDailyCapacity]
    split_ifs with hd
    all_goals exact h

/-- Closed instance of `ops_preserve_lastTxOk` at the state reached from the
initial snapshot by one earn and one spend. -/
theorem ops_preserve_lastTxOk_witness :
    lastTxOk auditState = true ∧
    (lastTxOk (addBalance 10 TransactionSourceType.habit none "w1" 0 1
        auditState).2 = true ∧
     lastTxOk (deductBalance 10 TransactionSourceType.habit none "w1" 0
        auditState).2 = true ∧
     lastTxOk (resetDailyEarned 1 auditState) = true ∧
     lastTxOk (getTransactions 5 auditState).2 = true ∧
     lastTxOk (getRemainingDailyCapacity 1 auditState).2 = true) :=
  ⟨by decide,
   ops_preserve_lastTxOk auditState 1 10 TransactionSourceType.habit none
     "w1" 0 5 (by decide)⟩

/-- C10: `deductBalance` never touches `dailyEarned`, `lastResetDate` or
`lifetimeEarned`, whether it succeeds or fails — in particular it never
performs the daily rollover. -/
theorem deductBalance_frame
    (s : TimeBankState) (amount : Int) (src : TransactionSourceType)
    (md : Option TransactionMetadata) (id : String) (ts : Int) :
    (deductBalance amount src md id ts s).2.dailyEarned = s.dailyEarned ∧
    (deductBalance amount src md id ts s).2.lastResetDate = s.lastResetDate ∧
    (deductBalance amount src md id ts s).2.lifetimeEarned = s.lifetimeEarned := by
  simp only [deductBalance]
  split
  · exact ⟨rfl, rfl, rfl⟩
  · exact ⟨rfl, rfl, rfl⟩

end HabitGate
